import Mathlib

/-!
A shallow embedding of the ai-job-copilot backend, covering the scraping and
LLM services (`app/services/scraper_service.py`, `app/services/llm_service.py`),
the CRUD layer (`app/crud/jobs.py` over `app/models/job.py` and
`app/schemas/job.py`), and the single-URL scrape-analyze-create flow
(`app/routers/jobs.py`, `scrape_analyze_and_create_job`).  External providers
(Firecrawl, Gemini) appear as explicit response parameters; module-level API
keys appear as `Option String` parameters.  The multi-URL batch pipeline
orchestrator described by the design document is not present in the source
tree, so it is modelled from the spec where marked.
-/

set_option autoImplicit false

namespace JobCopilot

/-- A Python/JSON value as handled by the services: `None`, booleans, integers,
strings, lists, and dicts (modelled as association lists with the first
occurrence of a key binding it, matching unique-key Python dicts). -/
inductive PyVal where
  | vnull
  | vbool (b : Bool)
  | vint (n : Int)
  | vstr (s : String)
  | vlist (xs : List PyVal)
  | vdict (kvs : List (String × PyVal))

/-- First-occurrence lookup in a dict's association list (Python `k in d` /
`d[k]` / `d.get(k)` on unique-key dicts). -/
def pyLookup (kvs : List (String × PyVal)) (k : String) : Option PyVal :=
  match kvs with
  | [] => none
  | (k₁, v) :: rest => if k₁ = k then some v else pyLookup rest k

/-- Python truthiness of a value (`bool(v)`). -/
def pyTruthy : PyVal → Bool
  | .vnull => false
  | .vbool b => b
  | .vint n => decide (n ≠ 0)
  | .vstr s => decide (s ≠ "")
  | .vlist xs => !xs.isEmpty
  | .vdict kvs => !kvs.isEmpty

/-- Python truthiness of an optional string (`bool(x)` where `x` is `None` or
a `str`). -/
def optStrTruthy : Option String → Bool
  | none => false
  | some s => decide (s ≠ "")

/-- Exceptions the embedded code can raise. -/
inductive PyErr where
  | valueError (msg : String)
  | httpException (detail : String)
  | attributeError (msg : String)
  | validationError (msg : String)
  | integrityError (msg : String)
deriving DecidableEq

/-! ## scraper_service.py -/

/-- Outcome of one Firecrawl `scrape_url` provider call as observed by
`scrape_job_url`: the provider raised (network error or non-success status all
raise in the Python client), or returned a document whose `markdown` attribute
is `None` or a string (possibly empty). -/
inductive ScrapeOutcome where
  | raise
  | doc (markdown : Option String)
deriving DecidableEq

/-- Embedding of `scraper_service.scrape_job_url` (lines 10-25): raises `ValueError` when
the Firecrawl key is unset; otherwise returns the document's markdown, with
any provider exception caught and converted to `None`. -/
def scrape_job_url (key : Option String) (resp : ScrapeOutcome) :
    Except PyErr (Option String) :=
  match key with
  | none => .error (.valueError "Firecrawl API key is not set.")
  | some _ =>
    match resp with
    | .raise => .ok none
    | .doc md => .ok md

/-- One element of the Firecrawl batch response list as dispatched by the
`for item in results_list` loop of `batch_scrape_job_urls`: a
`FirecrawlDocument` (markdown, metadata, url attributes), a tuple, a dict, or
anything else. -/
inductive BatchItem where
  | fdoc (markdown : Option String) (metadata : Option PyVal) (url : Option String)
  | tup (xs : List PyVal)
  | pdict (kvs : List (String × PyVal))
  | other

/-- The overall Firecrawl `batch_scrape_urls` response as dispatched by
`batch_scrape_job_urls`: the provider raised, returned a plain list, returned
an object carrying a `.data` list, or returned some unexpected type. -/
inductive BatchResponse where
  | praise
  | rlist (items : List BatchItem)
  | rdata (items : List BatchItem)
  | runknown

/-- Embed an optional string attribute as the dict value it becomes. -/
def optStrVal : Option String → PyVal
  | none => .vnull
  | some s => .vstr s

/-- The per-item normalization of `batch_scrape_job_urls` (lines 58-83):
turn a response item into the unified `data_dict`, or `none` for the
`continue` branches (unexpected item format, empty tuple, tuple head that is
not a dict). -/
def itemToDict (item : BatchItem) : Option (List (String × PyVal)) :=
  match item with
  | .fdoc md meta url =>
    some [("success", .vbool md.isSome), ("markdown", optStrVal md),
          ("metadata", meta.getD .vnull), ("url", optStrVal url)]
  | .tup [] => none
  | .tup (x :: _) =>
    match x with
    | .vdict kvs => some kvs
    | _ => none
  | .pdict kvs => some kvs
  | .other => none

/-- Truthiness of `data_dict.get('markdown')`. -/
def markdownTruthy (kvs : List (String × PyVal)) : Bool :=
  match pyLookup kvs "markdown" with
  | some v => pyTruthy v
  | none => false

/-- Whether `data_dict.get('success') is True`: the entry must be present and
be exactly the boolean `True`. -/
def successIsTrue (kvs : List (String × PyVal)) : Bool :=
  match pyLookup kvs "success" with
  | some (.vbool b) => b
  | _ => false

/-- The full per-item filter of `batch_scrape_job_urls` (lines 58-92): keep
the unified `data_dict` exactly when `data_dict.get('success') is True` and
`data_dict.get('markdown')` is truthy; every other branch skips the item. -/
def itemKept (item : BatchItem) : Option (List (String × PyVal)) :=
  match itemToDict item with
  | none => none
  | some kvs =>
    if successIsTrue kvs && markdownTruthy kvs then some kvs else none

/-- The accumulation loop of `batch_scrape_job_urls` (`processed_results`). -/
def processItems (items : List BatchItem) : List (List (String × PyVal)) :=
  items.filterMap itemKept

/-- Embedding of `scraper_service.batch_scrape_job_urls` (lines 28-99): raises `ValueError`
when the Firecrawl key is unset; otherwise normalizes the provider response
to a results list (empty for an unexpected response type), filters it with
`itemKept`, and converts any provider exception to the empty list. -/
def batch_scrape_job_urls (key : Option String) (_urls : List String)
    (resp : BatchResponse) : Except PyErr (List (List (String × PyVal))) :=
  match key with
  | none => .error (.valueError "Firecrawl API key is not set.")
  | some _ =>
    match resp with
    | .praise => .ok []
    | .runknown => .ok []
    | .rlist items => .ok (processItems items)
    | .rdata items => .ok (processItems items)

/-! ## llm_service.py -/

/-- Outcome of one Gemini `generate_content` call followed by `json.loads`,
as observed inside the `try` blocks of `llm_service`: either some step raised
(provider rejection, error, or non-JSON text), or a parsed JSON value. -/
inductive LLMOutcome where
  | raise
  | parsed (v : PyVal)

/-- Embedding of `llm_service.analyze_job_description` (lines 11-53): raises `ValueError`
when the Gemini key is unset; otherwise returns the parsed model output, with
any exception caught and converted to `None`. -/
def analyze_job_description (key : Option String) (resp : LLMOutcome) :
    Except PyErr (Option PyVal) :=
  match key with
  | none => .error (.valueError "Gemini API key is not set. Please set the GEMINI_API_KEY environment variable.")
  | some _ =>
    match resp with
    | .raise => .ok none
    | .parsed v => .ok (some v)

/-- Embedding of `llm_service.extract_job_links_from_content` (lines 56-109): raises
`ValueError` when the Gemini key is unset; otherwise returns
`result_data["job_urls"]` verbatim when the parsed output is a dict whose
`job_urls` entry is a list, and the empty list for every other shape or for
any exception. -/
def extract_job_links_from_content (key : Option String) (resp : LLMOutcome) :
    Except PyErr (List PyVal) :=
  match key with
  | none => .error (.valueError "Gemini API key is not set. Please set the GEMINI_API_KEY environment variable.")
  | some _ =>
    match resp with
    | .raise => .ok []
    | .parsed v =>
      match v with
      | .vdict kvs =>
        match pyLookup kvs "job_urls" with
        | some (.vlist xs) => .ok xs
        | _ => .ok []
      | _ => .ok []

/-- The shape test of `extract_job_links_from_content` line 101, as a
reusable observation: `some xs` exactly when the model outcome is a parsed
dict whose `job_urls` entry is a list `xs`. -/
def linkShape : LLMOutcome → Option (List PyVal)
  | .parsed (.vdict kvs) =>
    match pyLookup kvs "job_urls" with
    | some (.vlist xs) => some xs
    | _ => none
  | _ => none

/-- Following the spec's words for the Link Extractor ("a set of candidate
job-posting URLs", "fully-qualified URLs ... direct links to jobs"): a
well-formed job link is at least a string bearing an http or https scheme.
This is a spec-side predicate, kept separate from the source translation, used
to compare the source behavior with the spec's filtering claim. -/
def specWellFormedJobUrl : PyVal → Bool
  | .vstr s => s.startsWith "http://" || s.startsWith "https://"
  | _ => false

/-! ## models/job.py, schemas/job.py, crud/jobs.py -/

/-- Embedding of `models.job.ApplicationStatus`. -/
inductive ApplicationStatus where
  | saved
  | applied
  | interviewing
  | offer
  | rejected
deriving DecidableEq

/-- One row of the `jobs` table (`models.job.Job`).  Every column other than
the primary key is nullable (the source declares none of them
`nullable=False`), so each is an `Option`; `created_at` and `updated_at` are
server-assigned instants, modelled as `Nat` ticks of the database clock. -/
structure Row where
  id : Nat
  job_title : Option String
  company_name : Option String
  job_url : Option String
  job_description : Option String
  analysis_results : Option PyVal
  status : Option ApplicationStatus
  created_at : Option Nat
  updated_at : Option Nat

/-- The database: an autoincrement counter for primary keys, the current
server clock (the value `func.now()` stamps), and the committed rows. -/
structure DB where
  nextId : Nat
  now : Nat
  rows : List Row

/-- Embedding of `schemas.job.JobCreate`: the three required creation fields (the
`HttpUrl` is stringified by `create_job` before insertion). -/
structure JobCreate where
  job_title : String
  company_name : String
  job_url : String
deriving DecidableEq

/-- Embedding of `crud.jobs.create_job` (lines 15-26): insert a new row built from the
payload; the `job_url` column is unique, so inserting a duplicate URL makes
the commit raise an integrity error.  `status` takes its column default,
`created_at` its server default; the remaining columns start `NULL`. -/
def create_job (db : DB) (job : JobCreate) : Except PyErr (Row × DB) :=
  if db.rows.any (fun r => decide (r.job_url = some job.job_url)) then
    .error (.integrityError "UNIQUE constraint failed: jobs.job_url")
  else
    let row : Row :=
      { id := db.nextId, job_title := some job.job_title,
        company_name := some job.company_name, job_url := some job.job_url,
        job_description := none, analysis_results := none,
        status := some .saved, created_at := some db.now, updated_at := none }
    .ok (row, { db with nextId := db.nextId + 1, rows := db.rows ++ [row] })

/-- Embedding of `schemas.job.JobUpdate`: each field is optional AND may be explicitly
null, and `model_dump(exclude_unset=True)` distinguishes the two; the outer
`Option` is presence in the payload, the inner one the value itself. -/
structure JobUpdate where
  job_title : Option (Option String)
  company_name : Option (Option String)
  status : Option (Option ApplicationStatus)
deriving DecidableEq

/-- Embedding of `crud.jobs.get_job` (lines 7-8). -/
def get_job (db : DB) (job_id : Nat) : Option Row :=
  db.rows.find? (fun r => decide (r.id = job_id))

/-- The `setattr` loop of `update_job` (lines 33-35) over the fields present
in `model_dump(exclude_unset=True)`. -/
def applyUpdate (row : Row) (u : JobUpdate) : Row :=
  let r₁ := match u.job_title with
    | none => row
    | some v => { row with job_title := v }
  let r₂ := match u.company_name with
    | none => r₁
    | some v => { r₁ with company_name := v }
  match u.status with
  | none => r₂
  | some v => { r₂ with status := v }

/-- Whether the `setattr` loop made a net change to the row: the ORM issues an
UPDATE statement (and hence fires the `onupdate` clock stamp on `updated_at`)
only when some attribute value actually changed.  Only the three `JobUpdate`
fields can have changed. -/
def updateDirty (row : Row) (u : JobUpdate) : Bool :=
  let r := applyUpdate row u
  !(decide (r.job_title = row.job_title) && decide (r.company_name = row.company_name)
    && decide (r.status = row.status))

/-- Embedding of `crud.jobs.update_job` (lines 28-40): `None` when the id is absent;
otherwise apply the payload's present fields, stamping `updated_at` with the
server clock when a net change is committed, and return the refreshed row
together with the new database state. -/
def update_job (db : DB) (job_id : Nat) (u : JobUpdate) : Option (Row × DB) :=
  match get_job db job_id with
  | none => none
  | some row =>
    let r₁ := applyUpdate row u
    let r₂ := if updateDirty row u then { r₁ with updated_at := some db.now } else r₁
    some (r₂, { db with rows := db.rows.map fun r => if r.id = job_id then r₂ else r })

/-! ## routers/jobs.py — the single-URL scrape-analyze-create flow -/

/-- The list-or-dict shape handling of `scrape_analyze_and_create_job`
(lines 196-208), computing `final_analysis`: the head of a nonempty list, the
dict itself, HTTP 500 for an empty list or any other type.  (The caller then
ignores this value — see the flow definition.) -/
def shapeCheck (analysis : PyVal) : Except PyErr PyVal :=
  match analysis with
  | .vlist (x :: _) => .ok x
  | .vlist [] => .error (.httpException "LLM analysis returned an empty list.")
  | .vdict kvs => .ok (.vdict kvs)
  | _ => .error (.httpException "LLM analysis returned an unexpected type.")

/-- Python `v.get(k, dflt)`: dict lookup with default on a dict, and an
`AttributeError` on any non-dict value (in particular on a list). -/
def pyGetAttr_get (v : PyVal) (k : String) (dflt : PyVal) : Except PyErr PyVal :=
  match v with
  | .vdict kvs => .ok ((pyLookup kvs k).getD dflt)
  | _ => .error (.attributeError "object has no attribute get")

/-- Pydantic validation of a required `str` field of `JobCreate`. -/
def asStr (v : PyVal) : Except PyErr String :=
  match v with
  | .vstr s => .ok s
  | _ => .error (.validationError "Input should be a valid string")

/-- The second commit of `scrape_analyze_and_create_job` (lines 218-221):
mutate the freshly created row's `job_description` and `analysis_results` and
commit, which fires the `onupdate` stamp on `updated_at`. -/
def secondCommit (row : Row) (scraped : Option String) (av : PyVal) (now : Nat) : Row :=
  { row with job_description := scraped, analysis_results := some av,
             updated_at := some now }

/-- The title the router stages on line 212,
`analysis_results.get("job_title", "Title not found")`, for a dict-shaped
analysis whose `job_title` entry, when present, is a string (a present
non-string entry makes the flow raise a validation error instead). -/
def titleFromAnalysis (kvs : List (String × PyVal)) : String :=
  match pyLookup kvs "job_title" with
  | some (.vstr t) => t
  | _ => "Title not found"

/-- The organization the router stages on line 213,
`analysis_results.get("company_name", "Company not found")`, for a dict-shaped
analysis whose `company_name` entry, when present, is a string. -/
def organizationFromAnalysis (kvs : List (String × PyVal)) : String :=
  match pyLookup kvs "company_name" with
  | some (.vstr c) => c
  | _ => "Company not found"

/-- The observable result of a successful run of the single-URL flow: the row
as first committed by `create_job`, the row as re-committed with description
and analysis attached, and the final database state. -/
structure FlowOut where
  created : Row
  final : Row
  db : DB

/-- Embedding of `routers.jobs.scrape_analyze_and_create_job` (lines 181-224), with the
provider interactions of the two services it calls made explicit.  Note that
lines 212-213 of the source read the creation fields from `analysis_results`
(the raw model value) rather than from the normalized `final_analysis`, which
this translation reproduces (the `shapeCheck` result is bound and dropped). -/
def scrape_analyze_and_create_job (fkey gkey : Option String)
    (sresp : ScrapeOutcome) (aresp : LLMOutcome) (url : String) (db : DB) :
    Except PyErr FlowOut :=
  match scrape_job_url fkey sresp with
  | .error e => .error e
  | .ok scraped =>
    if optStrTruthy scraped = false then
      .error (.httpException "Failed to scrape URL.")
    else
      match analyze_job_description gkey aresp with
      | .error e => .error e
      | .ok none => .error (.httpException "Failed to analyze job description.")
      | .ok (some av) =>
        if pyTruthy av = false then
          .error (.httpException "Failed to analyze job description.")
        else
          match shapeCheck av with
          | .error e => .error e
          | .ok _final_analysis =>
            match pyGetAttr_get av "job_title" (.vstr "Title not found") with
            | .error e => .error e
            | .ok tv =>
              match asStr tv with
              | .error e => .error e
              | .ok t =>
                match pyGetAttr_get av "company_name" (.vstr "Company not found") with
                | .error e => .error e
                | .ok cv =>
                  match asStr cv with
                  | .error e => .error e
                  | .ok c =>
                    match create_job db ⟨t, c, url⟩ with
                    | .error e => .error e
                    | .ok (row, db₁) =>
                      let fin := secondCommit row scraped av db₁.now
                      .ok ⟨row, fin,
                        { db₁ with rows := db₁.rows.map fun r => if r.id = row.id then fin else r }⟩

/-! ## The batch Pipeline Orchestrator

The multi-URL pipeline endpoint described by the design document (spec section
4.5) is not present under `src/` — only the single-URL variant and the service
layer are.  The definitions below are therefore modelled from the spec. -/

/-- Modelled from the spec: one element of the Bulk Fetcher's output as the
orchestrator consumes it (spec sections 4.2 and 4.5 step 4a) — the
reconnected source URL and the fetched content, either of which may be
missing on a degenerate item. -/
structure FetchedItem where
  url : Option String
  content : Option String
deriving DecidableEq

/-- Modelled from the spec: a staged JobRecord candidate (spec section 4.5
step 4c and glossary). -/
structure Candidate where
  title : String
  organization : String
  sourceUrl : String
  description : String
  analysis : PyVal

/-- Modelled from the spec: the terminal states of one batch run (spec
section 4.5). -/
inductive BatchOutcome where
  | Completed (n : Nat)
  | Aborted (reason : String)
deriving DecidableEq

/-- Modelled from the spec: the title field staged from an extracted record,
with the literal fallback string when the field is absent (spec section 4.5
step 4c; field names as in the repository's extraction prompt). -/
def stagedTitle (rec : PyVal) : String :=
  match rec with
  | .vdict kvs =>
    match pyLookup kvs "job_title" with
    | some (.vstr t) => t
    | _ => "Title not found"
  | _ => "Title not found"

/-- Modelled from the spec: the organization field staged from an extracted
record, with the literal fallback string when the field is absent. -/
def stagedOrganization (rec : PyVal) : String :=
  match rec with
  | .vdict kvs =>
    match pyLookup kvs "company_name" with
    | some (.vstr o) => o
    | _ => "Company not found"
  | _ => "Company not found"

/-- Modelled from the spec: step 4 of the orchestrator for one fetched item —
skip when content or recoverable source URL is missing (4a), call the Field
Extractor and skip the item on Failure (4b), otherwise stage a candidate with
fallback fields, the reconnected URL, the fetched text, and the raw extracted
mapping (4c). -/
def stageItem (extractFields : String → Option PyVal) (it : FetchedItem) :
    Option Candidate :=
  match it.url, it.content with
  | some u, some c =>
    match extractFields c with
    | some rec => some ⟨stagedTitle rec, stagedOrganization rec, u, c, rec⟩
    | none => none
  | _, _ => none

/-- Modelled from the spec: whether the Field Extractor call for an item
fails (returns Failure) on that item's content. -/
def fieldCallFails (extractFields : String → Option PyVal) (it : FetchedItem) : Bool :=
  (it.content.bind extractFields).isNone

/-- Modelled from the spec: the batch Pipeline Orchestrator state machine
(spec section 4.5) over collaborator functions for the Content Fetcher, Link
Extractor, Bulk Fetcher, and Field Extractor.  Returns the terminal state
together with the records persisted by the final commit (empty on any
abort). -/
def runBatchPipeline (fetch : String → Option String)
    (extractLinks : String → List String)
    (fetchMany : List String → List FetchedItem)
    (extractFields : String → Option PyVal)
    (searchUrl : String) : BatchOutcome × List Candidate :=
  match fetch searchUrl with
  | none => (.Aborted "fetch-failed", [])
  | some text =>
    let links := extractLinks text
    if links.isEmpty then (.Aborted "no-links-found", [])
    else
      let items := fetchMany links
      if items.isEmpty then (.Aborted "bulk-fetch-failed", [])
      else
        let staged := items.filterMap (stageItem extractFields)
        if staged.isEmpty then (.Aborted "no-valid-jobs", [])
        else (.Completed staged.length, staged)

/-! ## Helper lemmas -/

/-- Evaluation rule: `extract_job_links_from_content` with the key set returns exactly the
`linkShape` observation, defaulting to the empty list. -/
theorem extract_links_eq (k : String) (resp : LLMOutcome) :
    extract_job_links_from_content (some k) resp = .ok ((linkShape resp).getD []) := by
  cases resp with
  | raise => rfl
  | parsed v =>
    cases v with
    | vnull => rfl
    | vbool b => rfl
    | vint n => rfl
    | vstr s => rfl
    | vlist xs => rfl
    | vdict kvs =>
      have h₁ : extract_job_links_from_content (some k) (.parsed (.vdict kvs))
          = (match pyLookup kvs "job_urls" with
             | some (.vlist xs) => Except.ok xs
             | _ => Except.ok []) := rfl
      have h₂ : linkShape (.parsed (.vdict kvs))
          = (match pyLookup kvs "job_urls" with
             | some (.vlist xs) => some xs
             | _ => none) := rfl
      rw [h₁, h₂]
      cases hl : pyLookup kvs "job_urls" with
      | none => rfl
      | some w => cases w <;> rfl

/-- An entry kept by the per-item filter of the batch scraper passed both the
`success is True` and truthy-markdown tests. -/
theorem itemKept_success {item : BatchItem} {kvs : List (String × PyVal)}
    (h : itemKept item = some kvs) :
    successIsTrue kvs = true ∧ markdownTruthy kvs = true := by
  unfold itemKept at h
  split at h
  · exact absurd h (by simp)
  · split at h
    · cases h
      next hb => simpa using hb
    · exact absurd h (by simp)

/-- A true `successIsTrue` test pins the `success` entry to the boolean
`True`. -/
theorem successIsTrue_eq {kvs : List (String × PyVal)}
    (h : successIsTrue kvs = true) :
    pyLookup kvs "success" = some (.vbool true) := by
  unfold successIsTrue at h
  split at h
  · next b heq => rw [heq, h]
  · exact absurd h (by simp)

/-! ## Claims -/

/-- C9: when the corresponding API key configuration value is unset, each of
`scrape_job_url`, `batch_scrape_job_urls`, `analyze_job_description`, and
`extract_job_links_from_content` raises a `ValueError` whatever the provider
would have answered (the provider is never contacted), instead of returning
the documented failure value. -/
theorem unset_api_key_raises_value_error :
    (∀ r, scrape_job_url none r
      = .error (.valueError "Firecrawl API key is not set."))
    ∧ (∀ urls r, batch_scrape_job_urls none urls r
      = .error (.valueError "Firecrawl API key is not set."))
    ∧ (∀ r, analyze_job_description none r
      = .error (.valueError "Gemini API key is not set. Please set the GEMINI_API_KEY environment variable."))
    ∧ (∀ r, extract_job_links_from_content none r
      = .error (.valueError "Gemini API key is not set. Please set the GEMINI_API_KEY environment variable.")) :=
  ⟨fun _ => rfl, fun _ _ => rfl, fun _ => rfl, fun _ => rfl⟩

/-- C7: with the API key set, any model response that is not a single
structured object carrying a list-valued `job_urls` field — a provider error,
unparseable text, a non-dict value, a missing field, or a non-list field —
makes `extract_job_links_from_content` return the empty list rather than
propagate an exception. -/
theorem extract_links_shape_mismatch_empty (k : String) (resp : LLMOutcome)
    (h : linkShape resp = none) :
    extract_job_links_from_content (some k) resp = .ok [] := by
  rw [extract_links_eq, h]
  rfl

/-- Witness for C7 at a concrete mismatching response (parsed text that is
not a dict). -/
theorem extract_links_shape_mismatch_empty_witness :
    extract_job_links_from_content (some "k") (.parsed (.vstr "no links here"))
      = .ok [] :=
  extract_links_shape_mismatch_empty "k" (.parsed (.vstr "no links here")) rfl

/-- C6, counterexample: the source returns the model's `job_urls` list
verbatim, so an element that is not a well-formed job-posting URL (here the
number 42 and a scheme-less string) survives into the returned list. -/
theorem extract_links_unfiltered_counterexample :
    extract_job_links_from_content (some "k")
        (.parsed (.vdict [("job_urls", .vlist [.vint 42, .vstr "jobs"])]))
      = .ok [.vint 42, .vstr "jobs"]
    ∧ specWellFormedJobUrl (.vint 42) = false
    ∧ specWellFormedJobUrl (.vstr "jobs") = false :=
  ⟨rfl, rfl, by decide⟩

/-- C6, amended: `extract_job_links_from_content` validates only the
container shape — a dict with a list-valued `job_urls` entry — and returns
that list verbatim; it does not discard elements that are not well-formed job
links (that filtering is delegated to the model prompt). -/
theorem extract_links_returned_verbatim (k : String) (resp : LLMOutcome)
    (xs : List PyVal) (h : linkShape resp = some xs) :
    extract_job_links_from_content (some k) resp = .ok xs := by
  rw [extract_links_eq, h]
  rfl

/-- Witness for the amended C6 at a concrete response whose list holds an
ill-formed element, returned unchanged. -/
theorem extract_links_returned_verbatim_witness :
    extract_job_links_from_content (some "k")
        (.parsed (.vdict [("job_urls", .vlist [.vint 42])]))
      = .ok [.vint 42] :=
  extract_links_returned_verbatim "k"
    (.parsed (.vdict [("job_urls", .vlist [.vint 42])])) [.vint 42] rfl

/-- C8, counterexample: the failure causes of `scrape_job_url` do not
collapse to a single value — a provider document with empty markdown is
returned as the empty string, while a raising provider yields `None`, and the
two results differ. -/
theorem scrape_failure_not_single_value :
    scrape_job_url (some "k") (.doc (some "")) = .ok (some "")
    ∧ scrape_job_url (some "k") .raise = .ok none
    ∧ (Except.ok (some "") : Except PyErr (Option String)) ≠ .ok none :=
  ⟨rfl, rfl, by simp⟩

/-- C8, amended: every failure cause — provider raise (network error or
non-success status), absent markdown, or empty markdown — yields a result the
calling flow's truthiness test rejects; the causes are indistinguishable
under that test, though not literally one value (`None` for the first two,
the empty string for the third). -/
theorem scrape_failures_all_falsy (k : String) (resp : ScrapeOutcome)
    (h : resp = .raise ∨ resp = .doc none ∨ resp = .doc (some "")) :
    ∃ v, scrape_job_url (some k) resp = .ok v ∧ optStrTruthy v = false := by
  rcases h with h | h | h <;> subst h
  · exact ⟨none, rfl, rfl⟩
  · exact ⟨none, rfl, rfl⟩
  · exact ⟨some "", rfl, by decide⟩

/-- Witness for the amended C8 at the empty-markdown document. -/
theorem scrape_failures_all_falsy_witness :
    ∃ v, scrape_job_url (some "k") (.doc (some "")) = .ok v
      ∧ optStrTruthy v = false :=
  scrape_failures_all_falsy "k" (.doc (some "")) (Or.inr (Or.inr rfl))

/-- C4, counterexample: a provider item that is a plain dict with success and
markdown but no url or metadata entry is kept by `batch_scrape_job_urls`, yet
the returned element carries no information from which its originating URL
could be recovered — indeed the output is identical for two different input
URL lists. -/
theorem batch_scrape_url_unrecoverable_counterexample :
    batch_scrape_job_urls (some "k") ["https://a.example/1"]
        (.rlist [.pdict [("success", .vbool true), ("markdown", .vstr "text")]])
      = .ok [[("success", .vbool true), ("markdown", .vstr "text")]]
    ∧ pyLookup [("success", PyVal.vbool true), ("markdown", PyVal.vstr "text")] "url" = none
    ∧ pyLookup [("success", PyVal.vbool true), ("markdown", PyVal.vstr "text")] "metadata" = none
    ∧ batch_scrape_job_urls (some "k") ["https://b.example/2"]
        (.rlist [.pdict [("success", .vbool true), ("markdown", .vstr "text")]])
      = batch_scrape_job_urls (some "k") ["https://a.example/1"]
        (.rlist [.pdict [("success", .vbool true), ("markdown", .vstr "text")]]) :=
  ⟨rfl, rfl, rfl, rfl⟩

/-- C4, amended: with the key set, `batch_scrape_job_urls` never raises for
the batch and returns only successes — every element of the output has a
`success` entry that is exactly `True` and truthy markdown content, carrying
whatever url/metadata the provider supplied (the originating URL is
recoverable only when the provider included it); a batch where every item is
dropped yields the empty list, a raising provider yields the empty list, and
a `.data`-wrapped response is treated like a plain list. -/
theorem batch_scrape_only_successes (k : String) (urls : List String)
    (items : List BatchItem) :
    (∃ l, batch_scrape_job_urls (some k) urls (.rlist items) = .ok l
       ∧ (∀ d ∈ l, pyLookup d "success" = some (.vbool true) ∧ markdownTruthy d = true)
       ∧ ((∀ it ∈ items, itemKept it = none) → l = []))
    ∧ batch_scrape_job_urls (some k) urls .praise = .ok []
    ∧ batch_scrape_job_urls (some k) urls (.rdata items)
      = batch_scrape_job_urls (some k) urls (.rlist items) := by
  refine ⟨⟨processItems items, rfl, ?_, ?_⟩, rfl, rfl⟩
  · intro d hd
    rw [processItems, List.mem_filterMap] at hd
    obtain ⟨it, _, hk⟩ := hd
    obtain ⟨hsuc, hmd⟩ := itemKept_success hk
    exact ⟨successIsTrue_eq hsuc, hmd⟩
  · intro hall
    rw [processItems, List.filterMap_eq_nil_iff]
    exact hall

/-- Witness for the amended C4 at a concrete batch whose single item is a
failed fetch (no markdown), which is dropped. -/
theorem batch_scrape_only_successes_witness :
    (∃ l, batch_scrape_job_urls (some "k") ["https://a.example/1"]
        (.rlist [.fdoc none none (some "https://a.example/1")]) = .ok l
       ∧ (∀ d ∈ l, pyLookup d "success" = some (.vbool true) ∧ markdownTruthy d = true)
       ∧ ((∀ it ∈ [BatchItem.fdoc none none (some "https://a.example/1")],
             itemKept it = none) → l = []))
    ∧ batch_scrape_job_urls (some "k") ["https://a.example/1"] .praise = .ok []
    ∧ batch_scrape_job_urls (some "k") ["https://a.example/1"]
        (.rdata [.fdoc none none (some "https://a.example/1")])
      = batch_scrape_job_urls (some "k") ["https://a.example/1"]
        (.rlist [.fdoc none none (some "https://a.example/1")]) :=
  batch_scrape_only_successes "k" ["https://a.example/1"]
    [.fdoc none none (some "https://a.example/1")]

/-- C2: the single-URL flow does not normalize a list-shaped model analysis.
Although lines 196-203 compute `final_analysis` as the head of the list,
lines 212-213 read the creation fields from the raw `analysis_results` value,
so a one-element list containing a valid record raises `AttributeError`
(lists have no `.get`) and creates nothing, while the bare object creates the
record — contradicting the claim that both produce the same created job. -/
theorem scrape_list_analysis_attribute_error :
    scrape_analyze_and_create_job (some "fk") (some "gk") (.doc (some "Job text"))
        (.parsed (.vlist [.vdict [("job_title", .vstr "Backend Engineer"),
                                  ("company_name", .vstr "Acme")]]))
        "https://example.com/job/1" ⟨1, 0, []⟩
      = .error (.attributeError "object has no attribute get")
    ∧ scrape_analyze_and_create_job (some "fk") (some "gk") (.doc (some "Job text"))
        (.parsed (.vdict [("job_title", .vstr "Backend Engineer"),
                          ("company_name", .vstr "Acme")]))
        "https://example.com/job/1" ⟨1, 0, []⟩
      = .ok ⟨⟨1, some "Backend Engineer", some "Acme", some "https://example.com/job/1",
              none, none, some .saved, some 0, none⟩,
             ⟨1, some "Backend Engineer", some "Acme", some "https://example.com/job/1",
              some "Job text",
              some (.vdict [("job_title", .vstr "Backend Engineer"),
                            ("company_name", .vstr "Acme")]),
              some .saved, some 0, some 0⟩,
             ⟨2, 0, [⟨1, some "Backend Engineer", some "Acme", some "https://example.com/job/1",
                      some "Job text",
                      some (.vdict [("job_title", .vstr "Backend Engineer"),
                                    ("company_name", .vstr "Acme")]),
                      some .saved, some 0, some 0⟩]⟩⟩ :=
  ⟨rfl, rfl⟩

/-- C5, counterexample: the single-URL flow does update the record after its
creation step — the same row (id 1) is first committed by `create_job` with
no description, then committed again with the description attached. -/
theorem scrape_flow_second_commit_counterexample :
    (scrape_analyze_and_create_job (some "fk") (some "gk") (.doc (some "desc"))
        (.parsed (.vdict [("job_title", .vstr "T"), ("company_name", .vstr "C")]))
        "https://e.example/j" ⟨1, 7, []⟩).map
        (fun o => (o.created.id, o.created.job_description))
      = .ok (1, none)
    ∧ (scrape_analyze_and_create_job (some "fk") (some "gk") (.doc (some "desc"))
        (.parsed (.vdict [("job_title", .vstr "T"), ("company_name", .vstr "C")]))
        "https://e.example/j" ⟨1, 7, []⟩).map
        (fun o => (o.final.id, o.final.job_description))
      = .ok (1, some "desc") :=
  ⟨rfl, rfl⟩

/-- C5, amended: every record the single-URL flow persists is fully formed at
its creation commit — id, title, organization, and url all assigned, with
description and analysis still empty — and the flow then performs exactly one
follow-up update on that same record, attaching the scraped description, the
raw analysis, and the server's update stamp while changing nothing else;
beyond that single in-flow update, updates happen only via the CRUD surface. -/
theorem scrape_flow_single_followup_update (fkey gkey : Option String)
    (sresp : ScrapeOutcome) (aresp : LLMOutcome) (url : String) (db : DB)
    (out : FlowOut)
    (h : scrape_analyze_and_create_job fkey gkey sresp aresp url db = .ok out) :
    out.created.id = db.nextId
    ∧ (∃ t, out.created.job_title = some t)
    ∧ (∃ c, out.created.company_name = some c)
    ∧ out.created.job_url = some url
    ∧ out.created.status = some .saved
    ∧ out.created.job_description = none
    ∧ out.created.analysis_results = none
    ∧ (∃ s av, out.final = secondCommit out.created (some s) av db.now) := by
  unfold scrape_analyze_and_create_job at h
  split at h
  · exact Except.noConfusion h
  next scraped hscr =>
    split at h
    · exact Except.noConfusion h
    next hstruthy =>
      split at h
      · exact Except.noConfusion h
      · exact Except.noConfusion h
      next av hana =>
        split at h
        · exact Except.noConfusion h
        next havt =>
          split at h
          · exact Except.noConfusion h
          next hshape =>
            split at h
            · exact Except.noConfusion h
            next tv htv =>
              split at h
              · exact Except.noConfusion h
              next t ht =>
                split at h
                · exact Except.noConfusion h
                next cv hcv =>
                  split at h
                  · exact Except.noConfusion h
                  next c hc =>
                    split at h
                    · exact Except.noConfusion h
                    next row db₁ hcreate =>
                      unfold create_job at hcreate
                      split at hcreate
                      · exact Except.noConfusion hcreate
                      · simp only [Except.ok.injEq, Prod.mk.injEq] at hcreate
                        obtain ⟨hrow, hdb⟩ := hcreate
                        subst hrow
                        subst hdb
                        cases scraped with
                        | none => exact absurd rfl hstruthy
                        | some s =>
                          cases h
                          exact ⟨rfl, ⟨t, rfl⟩, ⟨c, rfl⟩, rfl, rfl, rfl, rfl,
                                 ⟨s, av, rfl⟩⟩

/-- Witness for the amended C5 at a concrete successful run. -/
theorem scrape_flow_single_followup_update_witness :
    (FlowOut.created ⟨⟨1, some "T", some "C", some "https://e.example/j", none, none,
        some .saved, some 7, none⟩,
      ⟨1, some "T", some "C", some "https://e.example/j", some "desc",
        some (.vdict [("job_title", .vstr "T"), ("company_name", .vstr "C")]),
        some .saved, some 7, some 7⟩,
      ⟨2, 7, [⟨1, some "T", some "C", some "https://e.example/j", some "desc",
        some (.vdict [("job_title", .vstr "T"), ("company_name", .vstr "C")]),
        some .saved, some 7, some 7⟩]⟩⟩).id = (DB.mk 1 7 []).nextId
    ∧ (∃ t, (FlowOut.created ⟨⟨1, some "T", some "C", some "https://e.example/j", none, none,
        some .saved, some 7, none⟩,
      ⟨1, some "T", some "C", some "https://e.example/j", some "desc",
        some (.vdict [("job_title", .vstr "T"), ("company_name", .vstr "C")]),
        some .saved, some 7, some 7⟩,
      ⟨2, 7, [⟨1, some "T", some "C", some "https://e.example/j", some "desc",
        some (.vdict [("job_title", .vstr "T"), ("company_name", .vstr "C")]),
        some .saved, some 7, some 7⟩]⟩⟩).job_title = some t)
    ∧ (∃ c, (FlowOut.created ⟨⟨1, some "T", some "C", some "https://e.example/j", none, none,
        some .saved, some 7, none⟩,
      ⟨1, some "T", some "C", some "https://e.example/j", some "desc",
        some (.vdict [("job_title", .vstr "T"), ("company_name", .vstr "C")]),
        some .saved, some 7, some 7⟩,
      ⟨2, 7, [⟨1, some "T", some "C", some "https://e.example/j", some "desc",
        some (.vdict [("job_title", .vstr "T"), ("company_name", .vstr "C")]),
        some .saved, some 7, some 7⟩]⟩⟩).company_name = some c)
    ∧ (FlowOut.created ⟨⟨1, some "T", some "C", some "https://e.example/j", none, none,
        some .saved, some 7, none⟩,
      ⟨1, some "T", some "C", some "https://e.example/j", some "desc",
        some (.vdict [("job_title", .vstr "T"), ("company_name", .vstr "C")]),
        some .saved, some 7, some 7⟩,
      ⟨2, 7, [⟨1, some "T", some "C", some "https://e.example/j", some "desc",
        some (.vdict [("job_title", .vstr "T"), ("company_name", .vstr "C")]),
        some .saved, some 7, some 7⟩]⟩⟩).job_url = some "https://e.example/j"
    ∧ (FlowOut.created ⟨⟨1, some "T", some "C", some "https://e.example/j", none, none,
        some .saved, some 7, none⟩,
      ⟨1, some "T", some "C", some "https://e.example/j", some "desc",
        some (.vdict [("job_title", .vstr "T"), ("company_name", .vstr "C")]),
        some .saved, some 7, some 7⟩,
      ⟨2, 7, [⟨1, some "T", some "C", some "https://e.example/j", some "desc",
        some (.vdict [("job_title", .vstr "T"), ("company_name", .vstr "C")]),
        some .saved, some 7, some 7⟩]⟩⟩).status = some .saved
    ∧ (FlowOut.created ⟨⟨1, some "T", some "C", some "https://e.example/j", none, none,
        some .saved, some 7, none⟩,
      ⟨1, some "T", some "C", some "https://e.example/j", some "desc",
        some (.vdict [("job_title", .vstr "T"), ("company_name", .vstr "C")]),
        some .saved, some 7, some 7⟩,
      ⟨2, 7, [⟨1, some "T", some "C", some "https://e.example/j", some "desc",
        some (.vdict [("job_title", .vstr "T"), ("company_name", .vstr "C")]),
        some .saved, some 7, some 7⟩]⟩⟩).job_description = none
    ∧ (FlowOut.created ⟨⟨1, some "T", some "C", some "https://e.example/j", none, none,
        some .saved, some 7, none⟩,
      ⟨1, some "T", some "C", some "https://e.example/j", some "desc",
        some (.vdict [("job_title", .vstr "T"), ("company_name", .vstr "C")]),
        some .saved, some 7, some 7⟩,
      ⟨2, 7, [⟨1, some "T", some "C", some "https://e.example/j", some "desc",
        some (.vdict [("job_title", .vstr "T"), ("company_name", .vstr "C")]),
        some .saved, some 7, some 7⟩]⟩⟩).analysis_results = none
    ∧ (∃ s av, (FlowOut.final ⟨⟨1, some "T", some "C", some "https://e.example/j", none, none,
        some .saved, some 7, none⟩,
      ⟨1, some "T", some "C", some "https://e.example/j", some "desc",
        some (.vdict [("job_title", .vstr "T"), ("company_name", .vstr "C")]),
        some .saved, some 7, some 7⟩,
      ⟨2, 7, [⟨1, some "T", some "C", some "https://e.example/j", some "desc",
        some (.vdict [("job_title", .vstr "T"), ("company_name", .vstr "C")]),
        some .saved, some 7, some 7⟩]⟩⟩)
      = secondCommit (FlowOut.created ⟨⟨1, some "T", some "C", some "https://e.example/j",
          none, none, some .saved, some 7, none⟩,
        ⟨1, some "T", some "C", some "https://e.example/j", some "desc",
          some (.vdict [("job_title", .vstr "T"), ("company_name", .vstr "C")]),
          some .saved, some 7, some 7⟩,
        ⟨2, 7, [⟨1, some "T", some "C", some "https://e.example/j", some "desc",
          some (.vdict [("job_title", .vstr "T"), ("company_name", .vstr "C")]),
          some .saved, some 7, some 7⟩]⟩⟩) (some s) av (DB.mk 1 7 []).now) :=
  scrape_flow_single_followup_update (some "fk") (some "gk") (.doc (some "desc"))
    (.parsed (.vdict [("job_title", .vstr "T"), ("company_name", .vstr "C")]))
    "https://e.example/j" ⟨1, 7, []⟩ _ rfl

/-- C3: for every successful scrape (non-empty fetched text) and every truthy
dict-shaped analysis whose `job_title` and `company_name` entries, when
present, are strings, the single-URL flow creates a record whose title is the
analysis's `job_title` or the literal `"Title not found"`, whose organization
is `company_name` or the literal `"Company not found"`, whose url is the
request URL, whose description is the fetched text, and whose analysis is the
raw analysis mapping. -/
theorem scrape_flow_staged_fields (fk gk url s : String)
    (kvs : List (String × PyVal)) (db : DB)
    (hs : s ≠ "") (hk : kvs ≠ [])
    (ht : pyLookup kvs "job_title" = none
        ∨ ∃ t, pyLookup kvs "job_title" = some (.vstr t))
    (hc : pyLookup kvs "company_name" = none
        ∨ ∃ c, pyLookup kvs "company_name" = some (.vstr c))
    (hfresh : ∀ r ∈ db.rows, r.job_url ≠ some url) :
    ∃ out, scrape_analyze_and_create_job (some fk) (some gk) (.doc (some s))
        (.parsed (.vdict kvs)) url db = .ok out
      ∧ out.final.job_title = some (titleFromAnalysis kvs)
      ∧ out.final.company_name = some (organizationFromAnalysis kvs)
      ∧ out.final.job_url = some url
      ∧ out.final.job_description = some s
      ∧ out.final.analysis_results = some (.vdict kvs) := by
  have hsb : optStrTruthy (some s) = true := decide_eq_true hs
  have hkb : pyTruthy (.vdict kvs) = true := by
    cases kvs with
    | nil => exact absurd rfl hk
    | cons a l => rfl
  have hfreshb : db.rows.any (fun r => decide (r.job_url = some url)) = false := by
    rw [List.any_eq_false]
    intro r hr
    simpa using hfresh r hr
  rcases ht with ht | ⟨t, ht⟩ <;> rcases hc with hc | ⟨c, hc⟩ <;>
    refine ⟨⟨⟨db.nextId, some (titleFromAnalysis kvs), some (organizationFromAnalysis kvs),
              some url, none, none, some ApplicationStatus.saved, some db.now, none⟩,
             ⟨db.nextId, some (titleFromAnalysis kvs), some (organizationFromAnalysis kvs),
              some url, some s, some (.vdict kvs), some ApplicationStatus.saved, some db.now,
              some db.now⟩,
             ⟨db.nextId + 1, db.now,
              (db.rows ++ [(⟨db.nextId, some (titleFromAnalysis kvs),
                some (organizationFromAnalysis kvs), some url, none, none,
                some ApplicationStatus.saved, some db.now, none⟩ : Row)]).map
                (fun (r : Row) => if r.id = db.nextId then
                  (⟨db.nextId, some (titleFromAnalysis kvs),
                    some (organizationFromAnalysis kvs), some url, some s, some (.vdict kvs),
                    some ApplicationStatus.saved, some db.now, some db.now⟩ : Row) else r)⟩⟩,
           ?_, rfl, rfl, rfl, rfl, rfl⟩ <;>
    simp [scrape_analyze_and_create_job, scrape_job_url, analyze_job_description,
          shapeCheck, pyGetAttr_get, asStr, create_job, secondCommit,
          titleFromAnalysis, organizationFromAnalysis, hsb, hkb, hfreshb, ht, hc]

/-- Witness for C3 at the spec's Scenario C: analysis
`{"job_title": "Backend Engineer", "company_name": "Acme"}`. -/
theorem scrape_flow_staged_fields_witness :
    ∃ out, scrape_analyze_and_create_job (some "f") (some "g")
        (.doc (some "We are hiring.")) (.parsed (.vdict
          [("job_title", .vstr "Backend Engineer"), ("company_name", .vstr "Acme")]))
        "https://acme.example/j" ⟨1, 0, []⟩ = .ok out
      ∧ out.final.job_title = some (titleFromAnalysis
          [("job_title", .vstr "Backend Engineer"), ("company_name", .vstr "Acme")])
      ∧ out.final.company_name = some (organizationFromAnalysis
          [("job_title", .vstr "Backend Engineer"), ("company_name", .vstr "Acme")])
      ∧ out.final.job_url = some "https://acme.example/j"
      ∧ out.final.job_description = some "We are hiring."
      ∧ out.final.analysis_results = some (.vdict
          [("job_title", .vstr "Backend Engineer"), ("company_name", .vstr "Acme")]) :=
  scrape_flow_staged_fields "f" "g" "https://acme.example/j" "We are hiring."
    [("job_title", .vstr "Backend Engineer"), ("company_name", .vstr "Acme")]
    ⟨1, 0, []⟩ (by decide) (List.cons_ne_nil _ _)
    (Or.inr ⟨"Backend Engineer", rfl⟩) (Or.inr ⟨"Acme", rfl⟩) (by simp)

/-- The `setattr` loop of `update_job` touches only the three `JobUpdate`
fields, and leaves even those alone when they are unset in the payload. -/
theorem applyUpdate_frame (row : Row) (u : JobUpdate) :
    (applyUpdate row u).id = row.id
    ∧ (applyUpdate row u).job_url = row.job_url
    ∧ (applyUpdate row u).job_description = row.job_description
    ∧ (applyUpdate row u).analysis_results = row.analysis_results
    ∧ (applyUpdate row u).created_at = row.created_at
    ∧ (applyUpdate row u).updated_at = row.updated_at
    ∧ (u.job_title = none → (applyUpdate row u).job_title = row.job_title)
    ∧ (u.company_name = none → (applyUpdate row u).company_name = row.company_name)
    ∧ (u.status = none → (applyUpdate row u).status = row.status) := by
  rcases u with ⟨jt, cn, st⟩
  cases jt <;> cases cn <;> cases st <;>
    refine ⟨rfl, rfl, rfl, rfl, rfl, rfl, ?_, ?_, ?_⟩ <;>
    intro hx <;> first | rfl | exact absurd hx (by simp)

/-- C10, counterexample: an update that changes `job_title` also changes a
fourth field — the ORM stamps the server-maintained `updated_at` (here from
unset to clock tick 9), so it is not true that only `job_title`,
`company_name`, and `status` can change. -/
theorem update_job_stamps_updated_at_counterexample :
    (update_job ⟨2, 9, [⟨1, some "T", some "C", some "https://u.example/1", none, none,
        some .saved, some 3, none⟩]⟩ 1 ⟨some (some "New"), none, none⟩).map
        (fun p => (p.1.job_title, p.1.updated_at))
      = some (some "New", some 9)
    ∧ (Row.updated_at ⟨1, some "T", some "C", some "https://u.example/1", none, none,
        some .saved, some 3, none⟩) = none :=
  ⟨rfl, rfl⟩

/-- C10, amended: for every existing record and accepted payload, only
`job_title`, `company_name`, `status`, and the server-maintained `updated_at`
stamp can change; `job_url`, `job_description`, `analysis_results`, and
`created_at` are unchanged by every update, fields omitted from the payload
keep their previous values, and `updated_at` either keeps its value or takes
the server clock of the committing update. -/
theorem update_job_frame (db : DB) (jid : Nat) (u : JobUpdate) (out : Row × DB)
    (h : update_job db jid u = some out) :
    ∃ row, get_job db jid = some row
      ∧ out.1.id = row.id
      ∧ out.1.job_url = row.job_url
      ∧ out.1.job_description = row.job_description
      ∧ out.1.analysis_results = row.analysis_results
      ∧ out.1.created_at = row.created_at
      ∧ (u.job_title = none → out.1.job_title = row.job_title)
      ∧ (u.company_name = none → out.1.company_name = row.company_name)
      ∧ (u.status = none → out.1.status = row.status)
      ∧ (out.1.updated_at = row.updated_at ∨ out.1.updated_at = some db.now) := by
  unfold update_job at h
  split at h
  · exact Option.noConfusion h
  next row hget =>
    obtain ⟨h1, h2, h3, h4, h5, h6, h7, h8, h9⟩ := applyUpdate_frame row u
    split at h
    · cases h
      exact ⟨row, hget, h1, h2, h3, h4, h5, h7, h8, h9, Or.inr rfl⟩
    · cases h
      exact ⟨row, hget, h1, h2, h3, h4, h5, h7, h8, h9, Or.inl h6⟩

/-- Witness for the amended C10 at a concrete update of `job_title`. -/
theorem update_job_frame_witness :
    ∃ row, get_job ⟨2, 9, [⟨1, some "T", some "C", some "https://u.example/1",
        none, none, some .saved, some 3, none⟩]⟩ 1 = some row
      ∧ (Prod.fst (⟨⟨1, some "New", some "C", some "https://u.example/1", none, none,
          some .saved, some 3, some 9⟩,
          ⟨2, 9, [⟨1, some "New", some "C", some "https://u.example/1", none, none,
            some .saved, some 3, some 9⟩]⟩⟩ : Row × DB)).id = row.id
      ∧ (Prod.fst (⟨⟨1, some "New", some "C", some "https://u.example/1", none, none,
          some .saved, some 3, some 9⟩,
          ⟨2, 9, [⟨1, some "New", some "C", some "https://u.example/1", none, none,
            some .saved, some 3, some 9⟩]⟩⟩ : Row × DB)).job_url = row.job_url
      ∧ (Prod.fst (⟨⟨1, some "New", some "C", some "https://u.example/1", none, none,
          some .saved, some 3, some 9⟩,
          ⟨2, 9, [⟨1, some "New", some "C", some "https://u.example/1", none, none,
            some .saved, some 3, some 9⟩]⟩⟩ : Row × DB)).job_description = row.job_description
      ∧ (Prod.fst (⟨⟨1, some "New", some "C", some "https://u.example/1", none, none,
          some .saved, some 3, some 9⟩,
          ⟨2, 9, [⟨1, some "New", some "C", some "https://u.example/1", none, none,
            some .saved, some 3, some 9⟩]⟩⟩ : Row × DB)).analysis_results = row.analysis_results
      ∧ (Prod.fst (⟨⟨1, some "New", some "C", some "https://u.example/1", none, none,
          some .saved, some 3, some 9⟩,
          ⟨2, 9, [⟨1, some "New", some "C", some "https://u.example/1", none, none,
            some .saved, some 3, some 9⟩]⟩⟩ : Row × DB)).created_at = row.created_at
      ∧ ((JobUpdate.mk (some (some "New")) none none).job_title = none →
          (Prod.fst (⟨⟨1, some "New", some "C", some "https://u.example/1", none, none,
            some .saved, some 3, some 9⟩,
            ⟨2, 9, [⟨1, some "New", some "C", some "https://u.example/1", none, none,
              some .saved, some 3, some 9⟩]⟩⟩ : Row × DB)).job_title = row.job_title)
      ∧ ((JobUpdate.mk (some (some "New")) none none).company_name = none →
          (Prod.fst (⟨⟨1, some "New", some "C", some "https://u.example/1", none, none,
            some .saved, some 3, some 9⟩,
            ⟨2, 9, [⟨1, some "New", some "C", some "https://u.example/1", none, none,
              some .saved, some 3, some 9⟩]⟩⟩ : Row × DB)).company_name = row.company_name)
      ∧ ((JobUpdate.mk (some (some "New")) none none).status = none →
          (Prod.fst (⟨⟨1, some "New", some "C", some "https://u.example/1", none, none,
            some .saved, some 3, some 9⟩,
            ⟨2, 9, [⟨1, some "New", some "C", some "https://u.example/1", none, none,
              some .saved, some 3, some 9⟩]⟩⟩ : Row × DB)).status = row.status)
      ∧ ((Prod.fst (⟨⟨1, some "New", some "C", some "https://u.example/1", none, none,
            some .saved, some 3, some 9⟩,
            ⟨2, 9, [⟨1, some "New", some "C", some "https://u.example/1", none, none,
              some .saved, some 3, some 9⟩]⟩⟩ : Row × DB)).updated_at = row.updated_at
         ∨ (Prod.fst (⟨⟨1, some "New", some "C", some "https://u.example/1", none, none,
            some .saved, some 3, some 9⟩,
            ⟨2, 9, [⟨1, some "New", some "C", some "https://u.example/1", none, none,
              some .saved, some 3, some 9⟩]⟩⟩ : Row × DB)).updated_at
            = some (DB.now ⟨2, 9, [⟨1, some "T", some "C", some "https://u.example/1",
                none, none, some .saved, some 3, none⟩]⟩)) :=
  update_job_frame ⟨2, 9, [⟨1, some "T", some "C", some "https://u.example/1", none, none,
      some .saved, some 3, none⟩]⟩ 1 ⟨some (some "New"), none, none⟩ _ rfl

/-- Counting the per-item stage: when every fetched item carries a url and
content, the staged candidates and the items whose Field Extractor call
fails partition the batch. -/
theorem stage_count (f : String → Option PyVal) (items : List FetchedItem)
    (hall : ∀ it ∈ items, it.url.isSome ∧ it.content.isSome) :
    (items.filterMap (stageItem f)).length
      + (items.filter (fieldCallFails f)).length = items.length := by
  induction items with
  | nil => rfl
  | cons it rest ih =>
    obtain ⟨hu, hc⟩ := hall it (List.mem_cons_self it rest)
    have hrest : ∀ x ∈ rest, x.url.isSome ∧ x.content.isSome :=
      fun x hx => hall x (List.mem_cons_of_mem it hx)
    have hih := ih hrest
    obtain ⟨u, hu'⟩ := Option.isSome_iff_exists.mp hu
    obtain ⟨c, hc'⟩ := Option.isSome_iff_exists.mp hc
    cases hf : f c with
    | some rec =>
      have hstage : stageItem f it
          = some ⟨stagedTitle rec, stagedOrganization rec, u, c, rec⟩ := by
        simp [stageItem, hu', hc', hf]
      have hfails : fieldCallFails f it = false := by
        simp [fieldCallFails, hc', hf]
      simp [List.filterMap_cons, List.filter_cons, hstage, hfails]
      omega
    | none =>
      have hstage : stageItem f it = none := by
        simp [stageItem, hu', hc', hf]
      have hfails : fieldCallFails f it = true := by
        simp [fieldCallFails, hc', hf]
      simp [List.filterMap_cons, List.filter_cons, hstage, hfails]
      omega

/-- Inverting the per-item stage: a staged candidate pins its item's url to
the candidate's source URL and witnesses a successful Field Extractor call. -/
theorem stageItem_some {f : String → Option PyVal} {it : FetchedItem}
    {cand : Candidate} (h : stageItem f it = some cand) :
    it.url = some cand.sourceUrl ∧ fieldCallFails f it = false := by
  unfold stageItem at h
  split at h
  next u c hu hc =>
    split at h
    next rec hf =>
      cases h
      refine ⟨hu, ?_⟩
      unfold fieldCallFails
      rw [hc]
      show (f c).isNone = false
      rw [hf]
      rfl
    · exact Option.noConfusion h
  next => exact Option.noConfusion h

/-- C1, counterexample: the claim fails when two fetched items share a URL
(which the Bulk Fetcher's contract allows) — here two items both reconnect to
the same job URL, the Field Extractor fails on the first and succeeds on the
second, so the run completes with count = total − 1 as claimed, yet the
failing item's URL does appear among the persisted records. -/
theorem batch_pipeline_shared_url_counterexample :
    (runBatchPipeline (fun _ => some "page") (fun _ => ["https://s.example/list"])
        (fun _ => [⟨some "https://j.example/1", some "c1"⟩,
                   ⟨some "https://j.example/1", some "c2"⟩])
        (fun c => if c = "c2" then some (.vdict [("job_title", .vstr "T")]) else none)
        "https://s.example/search").1 = .Completed (2 - 1)
    ∧ (List.filter (fieldCallFails
          (fun c => if c = "c2" then some (.vdict [("job_title", .vstr "T")]) else none))
        [⟨some "https://j.example/1", some "c1"⟩,
         ⟨some "https://j.example/1", some "c2"⟩]).length = 1
    ∧ fieldCallFails
        (fun c => if c = "c2" then some (.vdict [("job_title", .vstr "T")]) else none)
        ⟨some "https://j.example/1", some "c1"⟩ = true
    ∧ "https://j.example/1" ∈
        ((runBatchPipeline (fun _ => some "page") (fun _ => ["https://s.example/list"])
          (fun _ => [⟨some "https://j.example/1", some "c1"⟩,
                     ⟨some "https://j.example/1", some "c2"⟩])
          (fun c => if c = "c2" then some (.vdict [("job_title", .vstr "T")]) else none)
          "https://s.example/search").2.map Candidate.sourceUrl) :=
  ⟨rfl, rfl, rfl, by decide⟩

/-- C1, amended: in any batch run reaching the Bulk Fetcher stage with at
least 2 fetched items, all carrying url and content, where exactly one item's
Field Extractor call fails — provided no two fetched items share a URL (the
Bulk Fetcher does not deduplicate) — the run completes with persisted-record
count equal to total − 1 and the failing item's URL never appears among the
persisted records. -/
theorem batch_pipeline_item_isolation
    (fetch : String → Option String) (extractLinks : String → List String)
    (fetchMany : List String → List FetchedItem) (f : String → Option PyVal)
    (searchUrl text : String) (items : List FetchedItem)
    (it₀ : FetchedItem) (u₀ : String)
    (hfetch : fetch searchUrl = some text)
    (hlinks : extractLinks text ≠ [])
    (hitems : fetchMany (extractLinks text) = items)
    (h2 : 2 ≤ items.length)
    (hall : ∀ it ∈ items, it.url.isSome ∧ it.content.isSome)
    (hone : (items.filter (fieldCallFails f)).length = 1)
    (hmem : it₀ ∈ items) (hfail : fieldCallFails f it₀ = true)
    (hu₀ : it₀.url = some u₀)
    (hnd : (items.map FetchedItem.url).Nodup) :
    (runBatchPipeline fetch extractLinks fetchMany f searchUrl).1
        = .Completed (items.length - 1)
    ∧ u₀ ∉ ((runBatchPipeline fetch extractLinks fetchMany f searchUrl).2.map
        Candidate.sourceUrl) := by
  have hcount := stage_count f items hall
  have hlen : (items.filterMap (stageItem f)).length = items.length - 1 := by omega
  have hlinksE : (extractLinks text).isEmpty = false := by
    simpa using hlinks
  have hitemsE : items.isEmpty = false := by
    cases items with
    | nil => exact absurd h2 (by simp)
    | cons a l => rfl
  have hstagedE : (items.filterMap (stageItem f)).isEmpty = false := by
    have h1 : 1 ≤ (items.filterMap (stageItem f)).length := by omega
    cases hE : items.filterMap (stageItem f) with
    | nil => rw [hE] at h1; exact absurd h1 (by simp)
    | cons a l => rfl
  have hpipe : runBatchPipeline fetch extractLinks fetchMany f searchUrl
      = (.Completed (items.filterMap (stageItem f)).length,
         items.filterMap (stageItem f)) := by
    unfold runBatchPipeline
    simp [hfetch, hlinksE, hitems, hitemsE, hstagedE]
  rw [hpipe, hlen]
  refine ⟨rfl, ?_⟩
  intro hin
  rw [List.mem_map] at hin
  obtain ⟨cand, hcand, hurl⟩ := hin
  rw [List.mem_filterMap] at hcand
  obtain ⟨it, hit, hstage⟩ := hcand
  obtain ⟨hiturl, hitok⟩ := stageItem_some hstage
  have hsame : FetchedItem.url it = FetchedItem.url it₀ := by
    rw [hiturl, hurl, hu₀]
  have : it = it₀ := List.inj_on_of_nodup_map hnd hit hmem hsame
  rw [this] at hitok
  rw [hitok] at hfail
  exact Bool.noConfusion hfail

/-- Witness for the amended C1: two distinct-URL items, the first failing. -/
theorem batch_pipeline_item_isolation_witness :
    (runBatchPipeline (fun _ => some "page")
        (fun _ => ["https://j.example/1", "https://j.example/2"])
        (fun ls => ls.map (fun u => ⟨some u, some u⟩))
        (fun c => if c = "https://j.example/1" then none else some (.vdict []))
        "https://s.example/search").1
      = .Completed ([(⟨some "https://j.example/1", some "https://j.example/1"⟩ : FetchedItem),
                     ⟨some "https://j.example/2", some "https://j.example/2"⟩].length - 1)
    ∧ "https://j.example/1" ∉
        ((runBatchPipeline (fun _ => some "page")
          (fun _ => ["https://j.example/1", "https://j.example/2"])
          (fun ls => ls.map (fun u => ⟨some u, some u⟩))
          (fun c => if c = "https://j.example/1" then none else some (.vdict []))
          "https://s.example/search").2.map Candidate.sourceUrl) :=
  batch_pipeline_item_isolation (fun _ => some "page")
    (fun _ => ["https://j.example/1", "https://j.example/2"])
    (fun ls => ls.map (fun u => ⟨some u, some u⟩))
    (fun c => if c = "https://j.example/1" then none else some (.vdict []))
    "https://s.example/search" "page"
    [⟨some "https://j.example/1", some "https://j.example/1"⟩,
     ⟨some "https://j.example/2", some "https://j.example/2"⟩]
    ⟨some "https://j.example/1", some "https://j.example/1"⟩ "https://j.example/1"
    rfl (by decide) rfl (by decide) (by decide) (by decide) (by decide) rfl rfl
    (by decide)

end JobCopilot
